import Mathlib

/-!
Verification development for `hw/usb/dev-tcp-remote.c` (TCP Remote USB bridge).

The definitions below are a shallow embedding of the functions of that file:
pure data is modelled by Lean structures, the mutable state of the device
(`USBTCPRemoteState`) by an explicit `RemoteState` record threaded through the
functions, and interactions with the socket / the concurrent reader thread by
explicit oracle parameters (read results, write results, the values observed
after a spin-wait).  Machine integers are modelled by `Nat` / `Int`; none of
the modelled code paths rely on wrap-around.
-/

/- Status codes, token values and request numbers from QEMU's `hw/usb.h`
   (external collaborator of this file; the values are QEMU's). -/
def USB_RET_SUCCESS : Int := 0
def USB_RET_NAK : Int := -2
def USB_RET_STALL : Int := -3
def USB_RET_IOERROR : Int := -5
def USB_RET_ASYNC : Int := -6
def USB_RET_REMOVE_FROM_QUEUE : Int := -8

def USB_TOKEN_SETUP : Nat := 0x2d
def USB_TOKEN_IN : Nat := 0x69
def USB_TOKEN_OUT : Nat := 0xe1

def USB_REQ_SET_ADDRESS : Nat := 0x05

def NANOSECONDS_PER_SECOND : Int := 1000000000

/-- Lifecycle state of a `USBPacket` (QEMU's `USBPacketState`). -/
inductive PacketState where
  | setup
  | queued
  | async
  | complete
  | canceled
deriving DecidableEq, Repr

/-- The first fields of a `struct usb_control_packet`, as which the staged
outbound buffer of an endpoint-0 SETUP packet is reinterpreted. -/
structure ControlPacket where
  bmRequestType : Nat
  bRequest : Nat
  wValue : Nat
deriving DecidableEq, Repr

/-- The host-owned transfer object (`USBPacket`), restricted to the fields the
bridge reads or writes.  `ctrl` is the interpretation of the first bytes of the
packet's outbound payload as a control request (what
`(struct usb_control_packet *)buffer` reads after `usb_packet_copy`). -/
structure USBPacket where
  pid : Nat
  ep : Nat
  stream : Nat
  id : Nat
  short_not_ok : Bool
  int_req : Bool
  iovSize : Nat
  actual_length : Nat
  status : Int
  state : PacketState
  combined : Bool
  ctrl : ControlPacket
deriving DecidableEq, Repr

/-- `USBTCPInflightPacket`: an entry of the inflight table. -/
structure InflightPacket where
  p : USBPacket
  addr : Nat
  handled : Bool
deriving DecidableEq, Repr

/-- `USBTCPCompletedPacket`: an entry of the completed queue. -/
structure CompletedPacket where
  p : USBPacket
  addr : Nat
deriving DecidableEq, Repr

/-- `tcp_usb_response_header` (wire layout fields used by the code). -/
structure ResponseHeader where
  addr : Nat
  pid : Nat
  ep : Nat
  id : Nat
  status : Int
  length : Nat
deriving DecidableEq, Repr

/-- The wire header type tag (`tcp_usb_header_t.type`); the concrete numeric
values live in `tcp-usb.h` and are immaterial to the control flow. -/
inductive TcpUsbType where
  | request
  | response
  | cancel
  | reset
deriving DecidableEq, Repr

/-- The mutable fields of `USBTCPRemoteState` that the modelled functions
touch.  `fdValid` stands for `fd != -1`; `addr` is the address shadow;
`cleanupBh` records whether `cleanup_bh` has been scheduled. -/
structure RemoteState where
  closed : Bool
  fdValid : Bool
  addr : Nat
  queue : List InflightPacket
  completed_queue : List CompletedPacket
  cleanupBh : Bool
deriving DecidableEq, Repr

/-- Which completion callback a drained packet is handed to. -/
inductive CompletionPath where
  | viaPortOps
  | viaPacketComplete
deriving DecidableEq, Repr

/-- Effect of `usb_tcp_remote_clean_inflight_queue` on one entry:
`p->status = USB_RET_STALL; qatomic_set(&p->handled, 1);`. -/
def stallEntry (e : InflightPacket) : InflightPacket :=
  { e with p := { e.p with status := USB_RET_STALL }, handled := true }

/-- `usb_tcp_remote_clean_inflight_queue`: stall and mark handled every
inflight entry (entries are cleaned up by their own submitters). -/
def usb_tcp_remote_clean_inflight_queue (q : List InflightPacket) :
    List InflightPacket :=
  q.map stallEntry

/-- `usb_tcp_remote_closed`: if the fd is gone, do nothing; otherwise mark the
connection closed, clean the inflight queue and schedule `cleanup_bh`. -/
def usb_tcp_remote_closed (s : RemoteState) : RemoteState :=
  if s.fdValid then
    { s with closed := true,
             queue := usb_tcp_remote_clean_inflight_queue s.queue,
             cleanupBh := true }
  else s

/-- Modelled from the spec: `usb_packet_copy` (QEMU core, not under `src/`)
moves `len` bytes between the packet's iov and a staging buffer and advances
the packet's `actual_length` by the copied amount. -/
def usb_packet_copy (p : USBPacket) (len : Nat) : USBPacket :=
  { p with actual_length := p.actual_length + len }

/-- `usb_tcp_remote_find_inflight_packet`, as a zipper: the entries before the
first match, the matching entry, and the entries after it. -/
def splitInflight (pid ep id : Nat) :
    List InflightPacket →
      Option (List InflightPacket × InflightPacket × List InflightPacket)
  | [] => none
  | e :: rest =>
      if e.p.pid = pid ∧ e.p.ep = ep ∧ e.p.id = id then
        some ([], e, rest)
      else
        match splitInflight pid ep id rest with
        | none => none
        | some (b, f, a) => some (e :: b, f, a)

/-- Result of one iteration of the reader loop (`usb_tcp_remote_read_one`).
`payloadConsumed` counts payload bytes taken off the stream (headers not
included); `pAfter` is the final value of the matched transfer, if any. -/
structure ReadOneResult where
  s : RemoteState
  cont : Bool
  payloadConsumed : Nat
  pAfter : Option USBPacket
  completedBhScheduled : Bool
deriving DecidableEq, Repr

/-- Lines 311-351 of `usb_tcp_remote_read_one`: apply the response status to
the matched transfer `p` (already holding any payload effect), with the
status-state mapping, the address-shadow bookkeeping, and the delivery either
onto the matched inflight entry or onto the completed queue. -/
def applyResponse (dev_addr : Nat) (s : RemoteState) (rhdr : ResponseHeader)
    (split : Option (List InflightPacket × InflightPacket × List InflightPacket))
    (p : USBPacket) (consumed : Nat) : ReadOneResult :=
  let p1 : USBPacket := { p with status := rhdr.status }
  if p1.state = PacketState.async ∧
     (p1.status = USB_RET_NAK ∨ p1.status = USB_RET_ASYNC) then
    let q1 := match split with
              | some (b, e, a) => b ++ [{ e with p := p1 }] ++ a
              | none => s.queue
    { s := usb_tcp_remote_closed { s with queue := q1 },
      cont := false, payloadConsumed := consumed,
      pAfter := some p1, completedBhScheduled := false }
  else
    let p2 : USBPacket :=
      if p1.state = PacketState.queued ∧ p1.status = USB_RET_NAK then
        { p1 with status := USB_RET_IOERROR }
      else p1
    let cancelled : Bool := p2.state = PacketState.canceled
    let s1 : RemoteState :=
      if ((p2.status ≠ USB_RET_SUCCESS ∧ p2.status ≠ USB_RET_ASYNC ∧
           p2.status ≠ USB_RET_NAK) ∨ cancelled = true) ∧
         p2.ep = 0 ∧ p2.pid = USB_TOKEN_IN then
        { s with addr := dev_addr }
      else s
    match split with
    | some (b, e, a) =>
        let e2 : InflightPacket := { e with p := p2, addr := rhdr.addr, handled := true }
        { s := { s1 with queue := b ++ [e2] ++ a },
          cont := true, payloadConsumed := consumed,
          pAfter := some p2, completedBhScheduled := false }
    | none =>
        if p2.status ≠ USB_RET_ASYNC ∧ cancelled = false then
          { s := { s1 with
                     completed_queue :=
                       s1.completed_queue ++ [{ p := p2, addr := rhdr.addr }] },
            cont := true, payloadConsumed := consumed,
            pAfter := some p2, completedBhScheduled := true }
        else
          { s := s1, cont := true, payloadConsumed := consumed,
            pAfter := some p2, completedBhScheduled := false }

/-- The `TCP_USB_RESPONSE` arm of `usb_tcp_remote_read_one` after the length
check: inflight lookup (with the host's lookup-by-id `epFind` as fallback),
payload phase, then `applyResponse`.  `payloadAvail` is the number of payload
bytes the stream can still deliver before EOF. -/
def usb_tcp_remote_read_response (dev_addr : Nat) (s : RemoteState)
    (rhdr : ResponseHeader) (payloadAvail : Nat) (epFind : Option USBPacket) :
    ReadOneResult :=
  let split := splitInflight rhdr.pid rhdr.ep rhdr.id s.queue
  let pOpt : Option USBPacket :=
    match split with
    | some (_, e, _) => some e.p
    | none => epFind
  if 0 < rhdr.length ∧ rhdr.status ≠ USB_RET_ASYNC then
    if rhdr.pid = USB_TOKEN_IN then
      if payloadAvail < rhdr.length then
        { s := usb_tcp_remote_closed s, cont := false,
          payloadConsumed := payloadAvail, pAfter := none,
          completedBhScheduled := false }
      else
        match pOpt with
        | none =>
            { s := s, cont := true, payloadConsumed := rhdr.length,
              pAfter := none, completedBhScheduled := false }
        | some p =>
            applyResponse dev_addr s rhdr split
              (usb_packet_copy p rhdr.length) rhdr.length
    else
      match pOpt with
      | none =>
          { s := s, cont := true, payloadConsumed := 0,
            pAfter := none, completedBhScheduled := false }
      | some p =>
          applyResponse dev_addr s rhdr split
            { p with actual_length := p.actual_length + rhdr.length } 0
  else
    match pOpt with
    | none =>
        { s := s, cont := true, payloadConsumed := 0,
          pAfter := none, completedBhScheduled := false }
    | some p => applyResponse dev_addr s rhdr split p 0

/-- `usb_tcp_remote_read_one`: read a wire header and dispatch on its type.
`hdrIn = none` / `rhdrIn = none` model short reads of the respective header
(in which case `usb_tcp_remote_read` itself tears the connection down). -/
def usb_tcp_remote_read_one (dev_addr : Nat) (s : RemoteState)
    (hdrIn : Option TcpUsbType) (rhdrIn : Option ResponseHeader)
    (payloadAvail : Nat) (epFind : Option USBPacket) : ReadOneResult :=
  match hdrIn with
  | none =>
      { s := usb_tcp_remote_closed s, cont := false, payloadConsumed := 0,
        pAfter := none, completedBhScheduled := false }
  | some t =>
      match t with
      | TcpUsbType.response =>
          match rhdrIn with
          | none =>
              { s := usb_tcp_remote_closed s, cont := false,
                payloadConsumed := 0, pAfter := none,
                completedBhScheduled := false }
          | some rhdr =>
              if 65536 < rhdr.length then
                { s := s, cont := false, payloadConsumed := 0,
                  pAfter := none, completedBhScheduled := false }
              else
                usb_tcp_remote_read_response dev_addr s rhdr payloadAvail epFind
      | _ =>
          { s := usb_tcp_remote_closed s, cont := false, payloadConsumed := 0,
            pAfter := none, completedBhScheduled := false }

/-- `usb_tcp_remote_clean_completed_queue`: drain the completed queue on
teardown/reset.  Each dequeued packet's status is set to `USB_RET_STALL`
first, then the code branches on `USB_RET_REMOVE_FROM_QUEUE`; the result lists
each drained packet with the completion path used for it. -/
def usb_tcp_remote_clean_completed_queue :
    List CompletedPacket → List (USBPacket × CompletionPath)
  | [] => []
  | c :: rest =>
      let p : USBPacket := { c.p with status := USB_RET_STALL }
      let act : USBPacket × CompletionPath :=
        if p.status = USB_RET_REMOVE_FROM_QUEUE then
          (p, CompletionPath.viaPortOps)
        else
          (p, CompletionPath.viaPacketComplete)
      act :: usb_tcp_remote_clean_completed_queue rest

/-- `usb_tcp_remote_completed_bh`: drain the completed queue on the completion
lane.  Returns whether the deferred address-commit task (`addr_bh`) was
scheduled by some entry, and the completion actions performed.  `shadow` and
`dev_addr` are `s->addr` and `dev->addr` (unchanged while this runs because
the commit itself is deferred); `inflight` is the host's
`usb_packet_is_inflight`. -/
def usb_tcp_remote_completed_bh (dev_addr shadow : Nat)
    (inflight : USBPacket → Bool) :
    List CompletedPacket → Bool × List (USBPacket × CompletionPath)
  | [] => (false, [])
  | c :: rest =>
      let sched : Bool :=
        shadow ≠ dev_addr ∧ c.p.ep = 0 ∧ c.p.pid = USB_TOKEN_IN ∧
          c.p.status = USB_RET_SUCCESS
      let acts : List (USBPacket × CompletionPath) :=
        if inflight c.p then
          if c.p.status = USB_RET_REMOVE_FROM_QUEUE then
            [(c.p, CompletionPath.viaPortOps)]
          else
            [(c.p, CompletionPath.viaPacketComplete)]
        else []
      let rec_ := usb_tcp_remote_completed_bh dev_addr shadow inflight rest
      (sched || rec_.1, acts ++ rec_.2)

/-- `usb_tcp_remote_update_addr_bh`: the deferred address-commit step; the new
visible device address is the shadow. -/
def usb_tcp_remote_update_addr_bh (_dev_addr : Nat) (s : RemoteState) : Nat :=
  s.addr

/-- Lines 755-771 of `usb_tcp_remote_handle_packet`: for a non-IN transfer
with nonzero remaining length, stage the outbound bytes (`usb_packet_copy`
followed by `p->actual_length -= pkt.length`), and if this is an endpoint-0
SETUP carrying a standard SET-ADDRESS request, stage the new address into the
address shadow. -/
def stageRequest (s : RemoteState) (p : USBPacket) : RemoteState × USBPacket :=
  let len := p.iovSize - p.actual_length
  if p.pid ≠ USB_TOKEN_IN ∧ len ≠ 0 then
    let pc := usb_packet_copy p len
    let p2 : USBPacket := { pc with actual_length := pc.actual_length - len }
    let s1 : RemoteState :=
      if p.pid = USB_TOKEN_SETUP ∧ p.ep = 0 ∧ p.ctrl.bmRequestType = 0 ∧
         p.ctrl.bRequest = USB_REQ_SET_ADDRESS then
        { s with addr := p.ctrl.wValue }
      else s
    (s1, p2)
  else (s, p)

/-- Values observed by the dispatcher when its spin-wait on the inflight
entry's handled flag finishes: the packet status written by the concurrent
reader (or teardown), and the address shadow at the `out:` label. -/
structure WakeEffect where
  pStatus : Int
  sAddr : Nat
deriving DecidableEq, Repr

/-- Result of `usb_tcp_remote_handle_packet`. -/
structure HPResult where
  dev_addr : Nat
  s : RemoteState
  p : USBPacket
  registered : Bool
  attemptedWrite : Bool
  writesDone : Bool
  waited : Bool
deriving DecidableEq, Repr

/-- The `out:` label of `usb_tcp_remote_handle_packet`: conditional address
commit, then removal of the inflight entry this invocation registered (the
entry is the last one this frame appended, hence `dropLast`). -/
def finishOut (dev_addr : Nat) (s : RemoteState) (p : USBPacket)
    (writesDone waited : Bool) : HPResult :=
  if s.addr ≠ dev_addr ∧ p.ep = 0 ∧ p.pid = USB_TOKEN_IN ∧
     p.status = USB_RET_SUCCESS then
    { dev_addr := s.addr, s := { s with queue := s.queue.dropLast }, p := p,
      registered := true, attemptedWrite := true,
      writesDone := writesDone, waited := waited }
  else
    { dev_addr := dev_addr, s := { s with queue := s.queue.dropLast }, p := p,
      registered := true, attemptedWrite := true,
      writesDone := writesDone, waited := waited }

/-- `usb_tcp_remote_handle_packet`: the request dispatcher.  `wHdr`, `wPkt`,
`wBuf` are oracles for whether the three outbound writes complete in full
(a failed `usb_tcp_remote_write` tears the connection down itself); `wake`
carries the values observed after the spin-wait. -/
def usb_tcp_remote_handle_packet (dev_addr : Nat) (s : RemoteState)
    (p : USBPacket) (wHdr wPkt wBuf : Bool) (wake : WakeEffect) : HPResult :=
  if s.closed then
    { dev_addr := dev_addr, s := s, p := { p with status := USB_RET_STALL },
      registered := false, attemptedWrite := false, writesDone := false,
      waited := false }
  else
    let len := p.iovSize - p.actual_length
    let sp := stageRequest s p
    let s1 := sp.1
    let p1 := sp.2
    let entry : InflightPacket := { p := p1, addr := dev_addr, handled := false }
    let s2 : RemoteState := { s1 with queue := s1.queue ++ [entry] }
    if wHdr = false then
      finishOut dev_addr (usb_tcp_remote_closed s2)
        { p1 with status := USB_RET_STALL } false false
    else if wPkt = false then
      finishOut dev_addr (usb_tcp_remote_closed s2)
        { p1 with status := USB_RET_STALL } false false
    else if (p.pid ≠ USB_TOKEN_IN ∧ len ≠ 0) ∧ wBuf = false then
      finishOut dev_addr (usb_tcp_remote_closed s2)
        { p1 with status := USB_RET_STALL } false false
    else
      finishOut dev_addr { s2 with addr := wake.sAddr }
        { p1 with status := wake.pStatus } true true

/-- The bounded spin-wait of `usb_tcp_remote_cancel_packet`: each iteration
reads the handled flag and, when it is still clear, the realtime clock.
`obs` is the sequence of those observations; the result is the number of
iterations run before the loop exits (reaching the end of `obs` means the
oracle was exhausted first). -/
def cancelSpin (start : Int) : List (Bool × Int) → Nat
  | [] => 0
  | (h, now) :: rest =>
      if h then 0
      else if start + NANOSECONDS_PER_SECOND < now then 0
      else cancelSpin start rest + 1

/-- Result of `usb_tcp_remote_cancel_packet`. -/
structure CPResult where
  s : RemoteState
  combinedDelegated : Bool
  registered : Bool
  spinIters : Nat
deriving DecidableEq, Repr

/-- `usb_tcp_remote_cancel_packet`: delegate combined packets, no-op when
closed; otherwise register a transient inflight entry, write the Cancel frame
(results ignored, though a short write still tears the connection down), wait
with the one-second bounded spin, then remove the transient entry. -/
def usb_tcp_remote_cancel_packet (dev_addr : Nat) (s : RemoteState)
    (p : USBPacket) (wHdr wPkt : Bool) (start : Int)
    (obs : List (Bool × Int)) : CPResult :=
  if p.combined then
    { s := s, combinedDelegated := true, registered := false, spinIters := 0 }
  else if s.closed then
    { s := s, combinedDelegated := false, registered := false, spinIters := 0 }
  else
    let entry : InflightPacket := { p := p, addr := dev_addr, handled := false }
    let s1 : RemoteState := { s with queue := s.queue ++ [entry] }
    let s2 := if wHdr then s1 else usb_tcp_remote_closed s1
    let s3 := if wPkt then s2 else usb_tcp_remote_closed s2
    let iters := cancelSpin start obs
    { s := { s3 with queue := s3.queue.dropLast },
      combinedDelegated := false, registered := true, spinIters := iters }

/-- The key by which the inflight table is searched. -/
def entryKey (e : InflightPacket) : Nat × Nat × Nat :=
  (e.p.pid, e.p.ep, e.p.id)

/-! Concrete sample values used to exercise the definitions. -/

def sampleCtrl : ControlPacket :=
  { bmRequestType := 0, bRequest := 0, wValue := 0 }

/-- A plain OUT transfer on endpoint 2, id 5, 10 bytes pending. -/
def samplePacket : USBPacket :=
  { pid := USB_TOKEN_OUT, ep := 2, stream := 0, id := 5,
    short_not_ok := false, int_req := false, iovSize := 10,
    actual_length := 0, status := USB_RET_SUCCESS,
    state := PacketState.queued, combined := false, ctrl := sampleCtrl }

/-- An endpoint-0 IN transfer, id 1. -/
def inPacket : USBPacket :=
  { samplePacket with pid := USB_TOKEN_IN, ep := 0, id := 1 }

def sampleState : RemoteState :=
  { closed := false, fdValid := true, addr := 0, queue := [],
    completed_queue := [], cleanupBh := false }

def closedState : RemoteState := { sampleState with closed := true }

def wake7 : WakeEffect := { pStatus := USB_RET_SUCCESS, sAddr := 7 }

def queuedEntry : InflightPacket :=
  { p := inPacket, addr := 0, handled := false }

def c5State : RemoteState := { sampleState with queue := [queuedEntry] }

def nakRhdr : ResponseHeader :=
  { addr := 0, pid := USB_TOKEN_IN, ep := 0, id := 1,
    status := USB_RET_NAK, length := 0 }

def outEntry : InflightPacket :=
  { p := samplePacket, addr := 0, handled := false }

def c7State : RemoteState := { sampleState with queue := [outEntry] }

def outRhdr : ResponseHeader :=
  { addr := 0, pid := USB_TOKEN_OUT, ep := 2, id := 5,
    status := USB_RET_SUCCESS, length := 10 }

/-- An endpoint-0 IN transfer that has been cancelled. -/
def cancEntry : InflightPacket :=
  { p := { inPacket with state := PacketState.canceled }, addr := 0,
    handled := false }

def c2State : RemoteState :=
  { sampleState with addr := 4, queue := [cancEntry] }

def stallRhdr : ResponseHeader :=
  { addr := 9, pid := USB_TOKEN_IN, ep := 0, id := 1,
    status := USB_RET_STALL, length := 0 }

/-! Helper lemmas. -/

theorem stallEntry_key (e : InflightPacket) : entryKey (stallEntry e) = entryKey e := rfl

theorem clean_inflight_keys (q : List InflightPacket) :
    (usb_tcp_remote_clean_inflight_queue q).map entryKey = q.map entryKey := by
  simp only [usb_tcp_remote_clean_inflight_queue, List.map_map]
  congr 1

theorem closed_keys (s : RemoteState) :
    (usb_tcp_remote_closed s).queue.map entryKey = s.queue.map entryKey := by
  unfold usb_tcp_remote_closed
  split
  · exact clean_inflight_keys s.queue
  · rfl

theorem closed_addr (s : RemoteState) :
    (usb_tcp_remote_closed s).addr = s.addr := by
  unfold usb_tcp_remote_closed
  split <;> rfl

theorem dropLast_keys_concat (q : List InflightPacket) (e : InflightPacket)
    (q2 : List InflightPacket)
    (h : q2.map entryKey = (q ++ [e]).map entryKey) :
    q2.dropLast.map entryKey = q.map entryKey := by
  rw [List.map_dropLast, h, List.map_append]
  exact List.dropLast_concat

theorem stageRequest_snd (s : RemoteState) (p : USBPacket) :
    (stageRequest s p).2 = p := by
  simp only [stageRequest]
  split
  · simp only [usb_packet_copy]
    rw [Nat.add_sub_cancel]
  · rfl

theorem stageRequest_fst_queue (s : RemoteState) (p : USBPacket) :
    (stageRequest s p).1.queue = s.queue := by
  simp only [stageRequest]
  split
  · split <;> rfl
  · rfl

theorem finishOut_p (d : Nat) (s : RemoteState) (p : USBPacket)
    (wd w : Bool) : (finishOut d s p wd w).p = p := by
  unfold finishOut
  split <;> rfl

theorem finishOut_writesDone (d : Nat) (s : RemoteState) (p : USBPacket)
    (wd w : Bool) : (finishOut d s p wd w).writesDone = wd := by
  unfold finishOut
  split <;> rfl

theorem finishOut_s_addr (d : Nat) (s : RemoteState) (p : USBPacket)
    (wd w : Bool) : (finishOut d s p wd w).s.addr = s.addr := by
  unfold finishOut
  split <;> rfl

theorem finishOut_s_queue (d : Nat) (s : RemoteState) (p : USBPacket)
    (wd w : Bool) : (finishOut d s p wd w).s.queue = s.queue.dropLast := by
  unfold finishOut
  split <;> rfl

theorem finishOut_dev_ne (d : Nat) (s : RemoteState) (p : USBPacket)
    (wd w : Bool) (h : (finishOut d s p wd w).dev_addr ≠ d) :
    p.ep = 0 ∧ p.pid = USB_TOKEN_IN ∧ p.status = USB_RET_SUCCESS ∧
      s.addr ≠ d ∧ (finishOut d s p wd w).dev_addr = s.addr := by
  simp only [finishOut] at h ⊢
  split at h
  · next hc =>
      obtain ⟨h1, h2, h3, h4⟩ := hc
      rw [if_pos ⟨h1, h2, h3, h4⟩]
      exact ⟨h2, h3, h4, h1, rfl⟩
  · exact absurd rfl h

theorem finishOut_dev_of_pid_ne (d : Nat) (s : RemoteState) (p : USBPacket)
    (wd w : Bool) (h : p.pid ≠ USB_TOKEN_IN) :
    (finishOut d s p wd w).dev_addr = d := by
  unfold finishOut
  split
  · next hc => exact absurd hc.2.2.1 h
  · rfl

theorem splitInflight_key (pid ep id : Nat) :
    ∀ (q : List InflightPacket) (b : List InflightPacket) (e : InflightPacket)
      (a : List InflightPacket),
      splitInflight pid ep id q = some (b, e, a) →
      e.p.pid = pid ∧ e.p.ep = ep ∧ e.p.id = id
  | [], b, e, a, h => by simp [splitInflight] at h
  | x :: rest, b, e, a, h => by
      simp only [splitInflight] at h
      split at h
      · next hm =>
          obtain ⟨rfl, rfl, rfl⟩ : ([], x, rest) = (b, e, a) := by
            simpa using h
          exact hm
      · cases hrec : splitInflight pid ep id rest with
        | none => rw [hrec] at h; exact absurd h (by simp)
        | some t =>
            obtain ⟨b2, f, a2⟩ := t
            rw [hrec] at h
            simp only [Option.some.injEq, Prod.mk.injEq] at h
            obtain ⟨h1, h2, h3⟩ := h
            subst h2
            exact splitInflight_key pid ep id rest b2 f a2 hrec

theorem read_one_response_matched
    (dev : Nat) (s : RemoteState) (rhdr : ResponseHeader) (avail : Nat)
    (epF : Option USBPacket) (b : List InflightPacket) (e : InflightPacket)
    (a : List InflightPacket)
    (hsplit : splitInflight rhdr.pid rhdr.ep rhdr.id s.queue = some (b, e, a))
    (hlen : rhdr.length ≤ 65536)
    (hava : rhdr.pid = USB_TOKEN_IN → rhdr.length ≤ avail) :
    usb_tcp_remote_read_one dev s (some TcpUsbType.response) (some rhdr) avail
        epF =
      if 0 < rhdr.length ∧ rhdr.status ≠ USB_RET_ASYNC then
        applyResponse dev s rhdr (some (b, e, a))
          { e.p with actual_length := e.p.actual_length + rhdr.length }
          (if rhdr.pid = USB_TOKEN_IN then rhdr.length else 0)
      else
        applyResponse dev s rhdr (some (b, e, a)) e.p 0 := by
  simp only [usb_tcp_remote_read_one, usb_tcp_remote_read_response, hsplit]
  rw [if_neg (Nat.not_lt.mpr hlen)]
  by_cases h1 : 0 < rhdr.length ∧ rhdr.status ≠ USB_RET_ASYNC
  · rw [if_pos h1, if_pos h1]
    by_cases h2 : rhdr.pid = USB_TOKEN_IN
    · rw [if_pos h2, if_pos h2]
      rw [if_neg (Nat.not_lt.mpr (hava h2))]
      rfl
    · rw [if_neg h2, if_neg h2]
  · rw [if_neg h1, if_neg h1]

theorem applyResponse_consumed (d : Nat) (s : RemoteState)
    (rhdr : ResponseHeader)
    (sp : Option (List InflightPacket × InflightPacket × List InflightPacket))
    (p : USBPacket) (c : Nat) :
    (applyResponse d s rhdr sp p c).payloadConsumed = c := by
  cases sp with
  | none =>
      simp only [applyResponse]
      simp [apply_ite ReadOneResult.payloadConsumed]
  | some t =>
      obtain ⟨b, e, a⟩ := t
      simp only [applyResponse]
      simp [apply_ite ReadOneResult.payloadConsumed]

theorem applyResponse_pAfter (d : Nat) (s : RemoteState)
    (rhdr : ResponseHeader)
    (sp : Option (List InflightPacket × InflightPacket × List InflightPacket))
    (p : USBPacket) (c : Nat) :
    ∃ p2, (applyResponse d s rhdr sp p c).pAfter = some p2 ∧
      p2.actual_length = p.actual_length ∧ p2.ep = p.ep ∧ p2.pid = p.pid ∧
      p2.state = p.state := by
  by_cases hdrop : ({ p with status := rhdr.status } : USBPacket).state =
      PacketState.async ∧
      (({ p with status := rhdr.status } : USBPacket).status = USB_RET_NAK ∨
       ({ p with status := rhdr.status } : USBPacket).status = USB_RET_ASYNC)
  · cases sp with
    | none =>
        simp only [applyResponse, if_pos hdrop]
        exact ⟨_, rfl, rfl, rfl, rfl, rfl⟩
    | some t =>
        obtain ⟨b, e, a⟩ := t
        simp only [applyResponse, if_pos hdrop]
        exact ⟨_, rfl, rfl, rfl, rfl, rfl⟩
  · by_cases hmap : ({ p with status := rhdr.status } : USBPacket).state =
        PacketState.queued ∧
        ({ p with status := rhdr.status } : USBPacket).status = USB_RET_NAK
    · cases sp with
      | none =>
          simp only [applyResponse, if_neg hdrop, if_pos hmap]
          refine ⟨{ p with status := USB_RET_IOERROR }, ?_, rfl, rfl, rfl, rfl⟩
          simp [apply_ite ReadOneResult.pAfter]
      | some t =>
          obtain ⟨b, e, a⟩ := t
          simp only [applyResponse, if_neg hdrop, if_pos hmap]
          exact ⟨_, rfl, rfl, rfl, rfl, rfl⟩
    · cases sp with
      | none =>
          simp only [applyResponse, if_neg hdrop, if_neg hmap]
          refine ⟨{ p with status := rhdr.status }, ?_, rfl, rfl, rfl, rfl⟩
          simp [apply_ite ReadOneResult.pAfter]
      | some t =>
          obtain ⟨b, e, a⟩ := t
          simp only [applyResponse, if_neg hdrop, if_neg hmap]
          exact ⟨_, rfl, rfl, rfl, rfl, rfl⟩

theorem applyResponse_success (d : Nat) (s : RemoteState)
    (rhdr : ResponseHeader)
    (sp : Option (List InflightPacket × InflightPacket × List InflightPacket))
    (p : USBPacket) (c : Nat) (h : rhdr.status = USB_RET_SUCCESS) :
    (applyResponse d s rhdr sp p c).pAfter =
        some { p with status := USB_RET_SUCCESS } ∧
      (applyResponse d s rhdr sp p c).cont = true := by
  cases sp with
  | none =>
      by_cases hc : p.state = PacketState.canceled <;>
        simp [applyResponse, h, hc, USB_RET_SUCCESS, USB_RET_NAK, USB_RET_ASYNC,
          apply_ite ReadOneResult.pAfter, apply_ite ReadOneResult.cont]
  | some t =>
      obtain ⟨b, e, a⟩ := t
      simp [applyResponse, h, USB_RET_SUCCESS, USB_RET_NAK, USB_RET_ASYNC,
        apply_ite ReadOneResult.pAfter, apply_ite ReadOneResult.cont]

theorem applyResponse_queued_nak (d : Nat) (s : RemoteState)
    (rhdr : ResponseHeader)
    (sp : Option (List InflightPacket × InflightPacket × List InflightPacket))
    (p : USBPacket) (c : Nat) (hst : p.state = PacketState.queued)
    (h : rhdr.status = USB_RET_NAK) :
    (applyResponse d s rhdr sp p c).pAfter =
        some { p with status := USB_RET_IOERROR } ∧
      (applyResponse d s rhdr sp p c).cont = true := by
  cases sp with
  | none =>
      simp [applyResponse, h, hst, USB_RET_NAK, USB_RET_ASYNC, USB_RET_SUCCESS,
        USB_RET_IOERROR, apply_ite ReadOneResult.pAfter,
        apply_ite ReadOneResult.cont]
  | some t =>
      obtain ⟨b, e, a⟩ := t
      simp [applyResponse, h, hst, USB_RET_NAK, USB_RET_ASYNC, USB_RET_SUCCESS,
        USB_RET_IOERROR, apply_ite ReadOneResult.pAfter,
        apply_ite ReadOneResult.cont]

theorem applyResponse_async_drop (d : Nat) (s : RemoteState)
    (rhdr : ResponseHeader)
    (sp : Option (List InflightPacket × InflightPacket × List InflightPacket))
    (p : USBPacket) (c : Nat) (hst : p.state = PacketState.async)
    (h : rhdr.status = USB_RET_NAK ∨ rhdr.status = USB_RET_ASYNC)
    (hfd : s.fdValid = true) :
    (applyResponse d s rhdr sp p c).s.closed = true ∧
      (applyResponse d s rhdr sp p c).cont = false := by
  simp only [applyResponse]
  rw [if_pos (by simpa [hst] using h)]
  constructor
  · simp [usb_tcp_remote_closed, hfd]
  · rfl

theorem applyResponse_matched_reset (d : Nat) (s : RemoteState)
    (rhdr : ResponseHeader) (b : List InflightPacket) (e : InflightPacket)
    (a : List InflightPacket) (p : USBPacket) (c : Nat)
    (hstate : p.state ≠ PacketState.async)
    (hcond : p.state = PacketState.canceled ∨
      (rhdr.status ≠ USB_RET_SUCCESS ∧ rhdr.status ≠ USB_RET_ASYNC ∧
        rhdr.status ≠ USB_RET_NAK))
    (hep : p.ep = 0) (hpid : p.pid = USB_TOKEN_IN) :
    (applyResponse d s rhdr (some (b, e, a)) p c).s.addr = d ∧
      (applyResponse d s rhdr (some (b, e, a)) p c).s.queue =
        b ++ [{ e with p := { p with status := rhdr.status },
                       addr := rhdr.addr, handled := true }] ++ a := by
  rcases hcond with hcanc | ⟨h1, h2, h3⟩
  · constructor <;> simp [applyResponse, hcanc, hep, hpid]
  · constructor <;>
      simp [applyResponse, h1, h2, h3, hep, hpid, hstate]

theorem finishOut_registered (d : Nat) (s : RemoteState) (p : USBPacket)
    (wd w : Bool) : (finishOut d s p wd w).registered = true := by
  unfold finishOut
  split <;> rfl

theorem cancelSpin_le (start : Int) :
    ∀ (obs : List (Bool × Int)) (j : Nat) (hj : j < obs.length),
      ((obs.get ⟨j, hj⟩).1 = true ∨
        start + NANOSECONDS_PER_SECOND < (obs.get ⟨j, hj⟩).2) →
      cancelSpin start obs ≤ j
  | [], j, hj, _ => absurd hj (by simp)
  | (h, now) :: rest, j, hj, hex => by
      simp only [cancelSpin]
      split
      · exact Nat.zero_le j
      · split
        · exact Nat.zero_le j
        · next hh ht =>
            cases j with
            | zero =>
                simp only [List.get] at hex
                rcases hex with hex | hex
                · exact absurd hex hh
                · exact absurd hex ht
            | succ j2 =>
                have hj2 : j2 < rest.length := by
                  simpa using Nat.lt_of_succ_lt_succ hj
                have hex2 : (rest.get ⟨j2, hj2⟩).1 = true ∨
                    start + NANOSECONDS_PER_SECOND < (rest.get ⟨j2, hj2⟩).2 := by
                  simpa using hex
                exact Nat.succ_le_succ (cancelSpin_le start rest j2 hj2 hex2)

theorem completed_bh_sched_aux (d sh : Nat) (infl : USBPacket → Bool) :
    ∀ q : List CompletedPacket,
      (usb_tcp_remote_completed_bh d sh infl q).1 = true →
      sh ≠ d ∧ ∃ c ∈ q, c.p.ep = 0 ∧ c.p.pid = USB_TOKEN_IN ∧
        c.p.status = USB_RET_SUCCESS
  | [], h => by simp [usb_tcp_remote_completed_bh] at h
  | c :: rest, h => by
      simp only [usb_tcp_remote_completed_bh, Bool.or_eq_true] at h
      rcases h with h | h
      · simp only [decide_eq_true_eq] at h
        obtain ⟨hne, hep, hpid, hst⟩ := h
        exact ⟨hne, c, List.mem_cons_self c rest, hep, hpid, hst⟩
      · obtain ⟨hne, c2, hmem, hrest⟩ := completed_bh_sched_aux d sh infl rest h
        exact ⟨hne, c2, List.mem_cons_of_mem c hmem, hrest⟩

theorem stall_ne_success : USB_RET_STALL ≠ USB_RET_SUCCESS := by decide

/-! Claim theorems. -/

/-- C8: in the teardown/reset drain of the Completed queue
(`usb_tcp_remote_clean_completed_queue`), every dequeued packet's status is
unconditionally set to stall immediately before the branch testing for the
remove-from-queue status, so that branch is unreachable and every drained
packet is completed via the standard `usb_packet_complete` path, never via the
port's remove-from-queue completion callback. -/
theorem clean_completed_always_standard_path (q : List CompletedPacket) :
    usb_tcp_remote_clean_completed_queue q =
      q.map (fun c => ({ c.p with status := USB_RET_STALL },
        CompletionPath.viaPacketComplete)) := by
  induction q with
  | nil => rfl
  | cons c rest ih =>
      simp only [usb_tcp_remote_clean_completed_queue, List.map_cons, ih]
      rw [if_neg (by decide)]

/-- C9: in the request dispatcher, for a non-IN transfer with nonzero
remaining length, the staging copy leaves the transfer's `actual_length`
exactly as it was before the dispatcher ran (the copy adds the staged length
and the dispatcher subtracts the same amount). -/
theorem staging_preserves_actual_length (s : RemoteState) (p : USBPacket)
    (_hpid : p.pid ≠ USB_TOKEN_IN) (_hlen : p.iovSize - p.actual_length ≠ 0) :
    (stageRequest s p).2.actual_length = p.actual_length := by
  rw [stageRequest_snd]

/-- C6: a transfer submitted on a closed connection is stalled immediately,
with no inflight registration, no write and no wait; and more generally every
dispatcher invocation whose outbound writes did not all complete leaves the
transfer with a stall status (the operation always returns a result on the
transfer object; the embedding is a total function). -/
theorem handle_packet_stall_on_failure :
    (∀ (dev : Nat) (s : RemoteState) (p : USBPacket) (w1 w2 w3 : Bool)
        (wake : WakeEffect), s.closed = true →
        (usb_tcp_remote_handle_packet dev s p w1 w2 w3 wake).p.status =
            USB_RET_STALL ∧
          (usb_tcp_remote_handle_packet dev s p w1 w2 w3 wake).s = s ∧
          (usb_tcp_remote_handle_packet dev s p w1 w2 w3 wake).dev_addr =
            dev ∧
          (usb_tcp_remote_handle_packet dev s p w1 w2 w3 wake).registered =
            false ∧
          (usb_tcp_remote_handle_packet dev s p w1 w2 w3
              wake).attemptedWrite = false ∧
          (usb_tcp_remote_handle_packet dev s p w1 w2 w3 wake).waited =
            false) ∧
    (∀ (dev : Nat) (s : RemoteState) (p : USBPacket) (w1 w2 w3 : Bool)
        (wake : WakeEffect),
        (usb_tcp_remote_handle_packet dev s p w1 w2 w3 wake).writesDone =
          false →
        (usb_tcp_remote_handle_packet dev s p w1 w2 w3 wake).p.status =
          USB_RET_STALL) := by
  constructor
  · intro dev s p w1 w2 w3 wake hc
    simp [usb_tcp_remote_handle_packet, hc]
  · intro dev s p w1 w2 w3 wake h
    by_cases hc : s.closed = true
    · simp [usb_tcp_remote_handle_packet, hc]
    · simp only [usb_tcp_remote_handle_packet, if_neg hc] at h ⊢
      by_cases h1 : w1 = false
      · rw [if_pos h1] at h ⊢
        rw [finishOut_p]
      · rw [if_neg h1] at h ⊢
        by_cases h2 : w2 = false
        · rw [if_pos h2] at h ⊢
          rw [finishOut_p]
        · rw [if_neg h2] at h ⊢
          by_cases h3 : (p.pid ≠ USB_TOKEN_IN ∧
              p.iovSize - p.actual_length ≠ 0) ∧ w3 = false
          · rw [if_pos h3] at h ⊢
            rw [finishOut_p]
          · rw [if_neg h3] at h
            rw [finishOut_writesDone] at h
            exact absurd h (by decide)

/-- C10: on every return path of the request dispatcher, the inflight table
the dispatcher leaves behind carries exactly the keys it started with — the
entry registered by the submission never outlives the submission call — and
whenever the connection was open an entry was indeed registered. -/
theorem handle_packet_inflight_net_zero (dev : Nat) (s : RemoteState)
    (p : USBPacket) (w1 w2 w3 : Bool) (wake : WakeEffect) :
    ((usb_tcp_remote_handle_packet dev s p w1 w2 w3 wake).s.queue.map
        entryKey = s.queue.map entryKey) ∧
      (s.closed = false →
        (usb_tcp_remote_handle_packet dev s p w1 w2 w3 wake).registered =
          true) := by
  by_cases hc : s.closed = true
  · refine ⟨by simp [usb_tcp_remote_handle_packet, hc], fun hf => by simp [hf] at hc⟩
  · simp only [usb_tcp_remote_handle_packet, if_neg hc]
    rw [stageRequest_fst_queue]
    by_cases h1 : w1 = false
    · rw [if_pos h1]
      refine ⟨?_, fun _ => finishOut_registered _ _ _ _ _⟩
      rw [finishOut_s_queue]
      refine dropLast_keys_concat s.queue
        ⟨(stageRequest s p).2, dev, false⟩ _ ?_
      rw [closed_keys]
    · rw [if_neg h1]
      by_cases h2 : w2 = false
      · rw [if_pos h2]
        refine ⟨?_, fun _ => finishOut_registered _ _ _ _ _⟩
        rw [finishOut_s_queue]
        refine dropLast_keys_concat s.queue
          ⟨(stageRequest s p).2, dev, false⟩ _ ?_
        rw [closed_keys]
      · rw [if_neg h2]
        by_cases h3 : (p.pid ≠ USB_TOKEN_IN ∧
            p.iovSize - p.actual_length ≠ 0) ∧ w3 = false
        · rw [if_pos h3]
          refine ⟨?_, fun _ => finishOut_registered _ _ _ _ _⟩
          rw [finishOut_s_queue]
          refine dropLast_keys_concat s.queue
            ⟨(stageRequest s p).2, dev, false⟩ _ ?_
          rw [closed_keys]
        · rw [if_neg h3]
          refine ⟨?_, fun _ => finishOut_registered _ _ _ _ _⟩
          rw [finishOut_s_queue]
          exact dropLast_keys_concat s.queue
            ⟨(stageRequest s p).2, dev, false⟩ _ rfl

/-- C1: the dispatcher's SETUP-stage staging of a SET-ADDRESS request never
modifies the visible device address (any SETUP submission leaves it
untouched); for every submitted transfer the visible address changes only to
the shadow value observed at the `out:` label, and only when the packet is an
endpoint-0 IN transfer whose final status is success; and the deferred
commit path schedules `addr_bh` only for a completed endpoint-0 IN transfer
with success status while the shadow differs from the visible address,
`addr_bh` itself committing the shadow. -/
theorem visible_addr_commit_discipline :
    (∀ (dev : Nat) (s : RemoteState) (p : USBPacket) (w1 w2 w3 : Bool)
        (wake : WakeEffect), p.pid = USB_TOKEN_SETUP →
        (usb_tcp_remote_handle_packet dev s p w1 w2 w3 wake).dev_addr =
          dev) ∧
    (∀ (dev : Nat) (s : RemoteState) (p : USBPacket) (w1 w2 w3 : Bool)
        (wake : WakeEffect),
        (usb_tcp_remote_handle_packet dev s p w1 w2 w3 wake).dev_addr ≠
          dev →
        p.ep = 0 ∧ p.pid = USB_TOKEN_IN ∧
          (usb_tcp_remote_handle_packet dev s p w1 w2 w3 wake).p.status =
            USB_RET_SUCCESS ∧
          (usb_tcp_remote_handle_packet dev s p w1 w2 w3 wake).dev_addr =
            (usb_tcp_remote_handle_packet dev s p w1 w2 w3 wake).s.addr) ∧
    (∀ (d sh : Nat) (infl : USBPacket → Bool) (q : List CompletedPacket),
        (usb_tcp_remote_completed_bh d sh infl q).1 = true →
        sh ≠ d ∧ ∃ c ∈ q, c.p.ep = 0 ∧ c.p.pid = USB_TOKEN_IN ∧
          c.p.status = USB_RET_SUCCESS) ∧
    (∀ (d : Nat) (s : RemoteState),
        usb_tcp_remote_update_addr_bh d s = s.addr) := by
  refine ⟨?_, ?_, completed_bh_sched_aux, fun d s => rfl⟩
  · intro dev s p w1 w2 w3 wake hpidS
    have hne0 : p.pid ≠ USB_TOKEN_IN := by rw [hpidS]; decide
    by_cases hc : s.closed = true
    · simp [usb_tcp_remote_handle_packet, hc]
    · simp only [usb_tcp_remote_handle_packet, if_neg hc]
      rw [stageRequest_snd]
      by_cases h1 : w1 = false
      · rw [if_pos h1]
        exact finishOut_dev_of_pid_ne _ _ _ _ _ hne0
      · rw [if_neg h1]
        by_cases h2 : w2 = false
        · rw [if_pos h2]
          exact finishOut_dev_of_pid_ne _ _ _ _ _ hne0
        · rw [if_neg h2]
          by_cases h3 : (p.pid ≠ USB_TOKEN_IN ∧
              p.iovSize - p.actual_length ≠ 0) ∧ w3 = false
          · rw [if_pos h3]
            exact finishOut_dev_of_pid_ne _ _ _ _ _ hne0
          · rw [if_neg h3]
            exact finishOut_dev_of_pid_ne _ _ _ _ _ hne0
  · intro dev s p w1 w2 w3 wake h
    by_cases hc : s.closed = true
    · exfalso
      apply h
      simp [usb_tcp_remote_handle_packet, hc]
    · simp only [usb_tcp_remote_handle_packet, if_neg hc] at h ⊢
      rw [stageRequest_snd] at h ⊢
      by_cases h1 : w1 = false
      · rw [if_pos h1] at h ⊢
        have hd := finishOut_dev_ne _ _ _ _ _ h
        exact absurd hd.2.2.1 stall_ne_success
      · rw [if_neg h1] at h ⊢
        by_cases h2 : w2 = false
        · rw [if_pos h2] at h ⊢
          have hd := finishOut_dev_ne _ _ _ _ _ h
          exact absurd hd.2.2.1 stall_ne_success
        · rw [if_neg h2] at h ⊢
          by_cases h3 : (p.pid ≠ USB_TOKEN_IN ∧
              p.iovSize - p.actual_length ≠ 0) ∧ w3 = false
          · rw [if_pos h3] at h ⊢
            have hd := finishOut_dev_ne _ _ _ _ _ h
            exact absurd hd.2.2.1 stall_ne_success
          · rw [if_neg h3] at h ⊢
            have hd := finishOut_dev_ne _ _ _ _ _ h
            refine ⟨hd.1, hd.2.1, ?_, ?_⟩
            · rw [finishOut_p]
              exact hd.2.2.1
            · rw [finishOut_s_addr]
              exact hd.2.2.2.2

/-- C4: for every Cancel invocation on an open connection for a non-combined
transfer, the transient inflight entry is removed before the operation
returns for every possible sequence of spin observations, and the spin-wait
consumes no more iterations than it takes to observe the handled flag or a
clock reading beyond one second past `start`. -/
theorem cancel_bounded_and_removed (dev : Nat) (s : RemoteState)
    (p : USBPacket) (w1 w2 : Bool) (start : Int) (obs : List (Bool × Int))
    (hcomb : p.combined = false) (hopen : s.closed = false) :
    ((usb_tcp_remote_cancel_packet dev s p w1 w2 start obs).s.queue.map
        entryKey = s.queue.map entryKey) ∧
      (usb_tcp_remote_cancel_packet dev s p w1 w2 start
          obs).registered = true ∧
      ∀ (j : Nat) (hj : j < obs.length),
        ((obs.get ⟨j, hj⟩).1 = true ∨
          start + NANOSECONDS_PER_SECOND < (obs.get ⟨j, hj⟩).2) →
        (usb_tcp_remote_cancel_packet dev s p w1 w2 start obs).spinIters ≤
          j := by
  simp only [usb_tcp_remote_cancel_packet,
    if_neg (by simp [hcomb] : ¬ p.combined = true),
    if_neg (by simp [hopen] : ¬ s.closed = true)]
  refine ⟨?_, trivial, ?_⟩
  · refine dropLast_keys_concat s.queue ⟨p, dev, false⟩ _ ?_
    cases w1 <;> cases w2 <;> simp [closed_keys]
  · intro j hj hcond
    exact cancelSpin_le start obs j hj hcond

/-- C5: in the reader loop, a matched transfer in the Queued state receiving
NAK has its applied status remapped to `USB_RET_IOERROR`; a matched transfer
already in the Async state receiving NAK or pending-async causes the
connection to be dropped and the reader loop to stop. -/
theorem reader_nak_remap_and_async_drop (dev : Nat) (s : RemoteState)
    (rhdr : ResponseHeader) (avail : Nat) (epF : Option USBPacket)
    (b : List InflightPacket) (e : InflightPacket) (a : List InflightPacket)
    (hsplit : splitInflight rhdr.pid rhdr.ep rhdr.id s.queue = some (b, e, a))
    (hlen : rhdr.length ≤ 65536) (havail : rhdr.length ≤ avail)
    (hfd : s.fdValid = true) :
    (e.p.state = PacketState.queued → rhdr.status = USB_RET_NAK →
      ∃ p2, (usb_tcp_remote_read_one dev s (some TcpUsbType.response)
          (some rhdr) avail epF).pAfter = some p2 ∧
        p2.status = USB_RET_IOERROR) ∧
    (e.p.state = PacketState.async →
      (rhdr.status = USB_RET_NAK ∨ rhdr.status = USB_RET_ASYNC) →
      (usb_tcp_remote_read_one dev s (some TcpUsbType.response)
          (some rhdr) avail epF).s.closed = true ∧
      (usb_tcp_remote_read_one dev s (some TcpUsbType.response)
          (some rhdr) avail epF).cont = false) := by
  rw [read_one_response_matched dev s rhdr avail epF b e a hsplit hlen
    (fun _ => havail)]
  constructor
  · intro hq hnak
    by_cases h1 : 0 < rhdr.length ∧ rhdr.status ≠ USB_RET_ASYNC
    · rw [if_pos h1]
      refine ⟨{ e.p with actual_length := e.p.actual_length + rhdr.length, status := USB_RET_IOERROR }, ?_, rfl⟩
      exact (applyResponse_queued_nak dev s rhdr (some (b, e, a))
        { e.p with actual_length := e.p.actual_length + rhdr.length }
        (if rhdr.pid = USB_TOKEN_IN then rhdr.length else 0) hq hnak).1
    · rw [if_neg h1]
      refine ⟨{ e.p with status := USB_RET_IOERROR }, ?_, rfl⟩
      exact (applyResponse_queued_nak dev s rhdr (some (b, e, a)) e.p 0 hq
        hnak).1
  · intro ha hdrop
    by_cases h1 : 0 < rhdr.length ∧ rhdr.status ≠ USB_RET_ASYNC
    · rw [if_pos h1]
      exact applyResponse_async_drop dev s rhdr (some (b, e, a))
        { e.p with actual_length := e.p.actual_length + rhdr.length }
        (if rhdr.pid = USB_TOKEN_IN then rhdr.length else 0) ha hdrop hfd
    · rw [if_neg h1]
      exact applyResponse_async_drop dev s rhdr (some (b, e, a)) e.p 0 ha
        hdrop hfd

/-- C7: a Response for an OUT-direction matched transfer with declared
length L greater than zero and status not pending-async consumes no payload
bytes from the stream and increases the transfer's `actual_length` by exactly
L; when the status is success the transfer ends with status success and the
reader keeps going. -/
theorem reader_out_response_accumulates (dev : Nat) (s : RemoteState)
    (rhdr : ResponseHeader) (avail : Nat) (epF : Option USBPacket)
    (b : List InflightPacket) (e : InflightPacket) (a : List InflightPacket)
    (hsplit : splitInflight rhdr.pid rhdr.ep rhdr.id s.queue = some (b, e, a))
    (hlen : rhdr.length ≤ 65536) (hpid : rhdr.pid = USB_TOKEN_OUT)
    (hpos : 0 < rhdr.length) (hna : rhdr.status ≠ USB_RET_ASYNC) :
    (usb_tcp_remote_read_one dev s (some TcpUsbType.response) (some rhdr)
        avail epF).payloadConsumed = 0 ∧
    ∃ p2, (usb_tcp_remote_read_one dev s (some TcpUsbType.response)
        (some rhdr) avail epF).pAfter = some p2 ∧
      p2.actual_length = e.p.actual_length + rhdr.length ∧
      (rhdr.status = USB_RET_SUCCESS →
        p2.status = USB_RET_SUCCESS ∧
        (usb_tcp_remote_read_one dev s (some TcpUsbType.response)
            (some rhdr) avail epF).cont = true) := by
  have hava : rhdr.pid = USB_TOKEN_IN → rhdr.length ≤ avail := by
    intro hin
    rw [hpid] at hin
    exact absurd hin (by decide)
  rw [read_one_response_matched dev s rhdr avail epF b e a hsplit hlen hava]
  rw [if_pos ⟨hpos, hna⟩]
  rw [if_neg (show ¬ rhdr.pid = USB_TOKEN_IN by rw [hpid]; decide)]
  constructor
  · exact applyResponse_consumed _ _ _ _ _ _
  · by_cases hS : rhdr.status = USB_RET_SUCCESS
    · refine ⟨{ e.p with actual_length := e.p.actual_length + rhdr.length, status := USB_RET_SUCCESS }, ?_, rfl, fun _ => ⟨rfl, ?_⟩⟩
      · exact (applyResponse_success dev s rhdr (some (b, e, a))
          { e.p with actual_length := e.p.actual_length + rhdr.length } 0
          hS).1
      · exact (applyResponse_success dev s rhdr (some (b, e, a))
          { e.p with actual_length := e.p.actual_length + rhdr.length } 0
          hS).2
    · obtain ⟨p2, hp2, hlen2, _, _, _⟩ := applyResponse_pAfter dev s rhdr
        (some (b, e, a))
        { e.p with actual_length := e.p.actual_length + rhdr.length } 0
      exact ⟨p2, hp2, hlen2, fun hS2 => absurd hS2 hS⟩

/-- C2 (amended): in the reader loop, for a Response matched to an inflight
endpoint-0 IN transfer that was cancelled or whose applied status is a hard
failure (not success, not pending-async, not NAK), the Address Shadow is
reset to the device's currently visible address; the address carried in the
response is captured not into the shadow but into the matched inflight entry,
together with its handled flag. -/
theorem reader_shadow_reset_and_entry_capture (dev : Nat) (s : RemoteState)
    (rhdr : ResponseHeader) (avail : Nat) (epF : Option USBPacket)
    (b : List InflightPacket) (e : InflightPacket) (a : List InflightPacket)
    (hsplit : splitInflight rhdr.pid rhdr.ep rhdr.id s.queue = some (b, e, a))
    (hlen : rhdr.length ≤ 65536) (havail : rhdr.length ≤ avail)
    (hstate : e.p.state ≠ PacketState.async)
    (hcond : e.p.state = PacketState.canceled ∨
      (rhdr.status ≠ USB_RET_SUCCESS ∧ rhdr.status ≠ USB_RET_ASYNC ∧
        rhdr.status ≠ USB_RET_NAK))
    (hep : e.p.ep = 0) (hpid : e.p.pid = USB_TOKEN_IN) :
    (usb_tcp_remote_read_one dev s (some TcpUsbType.response) (some rhdr)
        avail epF).s.addr = dev ∧
    ∃ p2, (usb_tcp_remote_read_one dev s (some TcpUsbType.response)
        (some rhdr) avail epF).s.queue =
        b ++ [{ e with p := p2, addr := rhdr.addr, handled := true }] ++ a ∧
      p2.status = rhdr.status := by
  rw [read_one_response_matched dev s rhdr avail epF b e a hsplit hlen
    (fun _ => havail)]
  by_cases h1 : 0 < rhdr.length ∧ rhdr.status ≠ USB_RET_ASYNC
  · rw [if_pos h1]
    have hm := applyResponse_matched_reset dev s rhdr b e a
      { e.p with actual_length := e.p.actual_length + rhdr.length }
      (if rhdr.pid = USB_TOKEN_IN then rhdr.length else 0)
      hstate hcond hep hpid
    exact ⟨hm.1, { e.p with actual_length := e.p.actual_length + rhdr.length, status := rhdr.status }, hm.2, rfl⟩
  · rw [if_neg h1]
    have hm := applyResponse_matched_reset dev s rhdr b e a e.p 0
      hstate hcond hep hpid
    exact ⟨hm.1, { e.p with status := rhdr.status }, hm.2, rfl⟩

/-- C3 (code evidence): a Response frame declaring length 65537 is rejected
without consuming any payload bytes from the stream and the reader loop
stops, but the connection state is left entirely unchanged — the Closed flag
is not set and no cleanup is scheduled, so the claimed teardown does not
happen; a declared length of exactly 65536 is accepted and its payload
consumed. -/
theorem overlong_response_no_teardown :
    ((usb_tcp_remote_read_one 0 sampleState (some TcpUsbType.response)
        (some { addr := 0, pid := USB_TOKEN_IN, ep := 0, id := 1,
                status := USB_RET_SUCCESS, length := 65537 }) 70000 none) =
      { s := sampleState, cont := false, payloadConsumed := 0,
        pAfter := none, completedBhScheduled := false }) ∧
    ((usb_tcp_remote_read_one 0 sampleState (some TcpUsbType.response)
        (some { addr := 0, pid := USB_TOKEN_IN, ep := 0, id := 1,
                status := USB_RET_SUCCESS, length := 65536 })
        70000 none).payloadConsumed = 65536 ∧
      (usb_tcp_remote_read_one 0 sampleState (some TcpUsbType.response)
        (some { addr := 0, pid := USB_TOKEN_IN, ep := 0, id := 1,
                status := USB_RET_SUCCESS, length := 65536 })
        70000 none).cont = true) := by
  decide

/-- C2 counterexample: an endpoint-0 IN inflight transfer that is not
cancelled, with response status success (terminal), response address 7 and
shadow 5: the claim says the shadow captures the response address 7; the code
leaves the shadow at 5. -/
theorem reader_shadow_not_captured_cex :
    (usb_tcp_remote_read_one 5
        { closed := false, fdValid := true, addr := 5,
          queue := [{ p := inPacket, addr := 5, handled := false }],
          completed_queue := [], cleanupBh := false }
        (some TcpUsbType.response)
        (some { addr := 7, pid := USB_TOKEN_IN, ep := 0, id := 1,
                status := USB_RET_SUCCESS, length := 0 })
        0 none).s.addr = 5 ∧ (5 : Nat) ≠ 7 := by
  decide

/-! Witnesses: each applies its claim's theorem at a concrete input. -/

theorem visible_addr_commit_discipline_w :
    inPacket.ep = 0 ∧ inPacket.pid = USB_TOKEN_IN ∧
      (usb_tcp_remote_handle_packet 0 sampleState inPacket true true true
          wake7).p.status = USB_RET_SUCCESS ∧
      (usb_tcp_remote_handle_packet 0 sampleState inPacket true true true
          wake7).dev_addr =
        (usb_tcp_remote_handle_packet 0 sampleState inPacket true true true
          wake7).s.addr :=
  visible_addr_commit_discipline.2.1 0 sampleState inPacket true true true
    wake7 (by decide)

theorem reader_shadow_reset_and_entry_capture_w :
    (usb_tcp_remote_read_one 3 c2State (some TcpUsbType.response)
        (some stallRhdr) 0 none).s.addr = 3 ∧
    ∃ p2, (usb_tcp_remote_read_one 3 c2State (some TcpUsbType.response)
        (some stallRhdr) 0 none).s.queue =
        [] ++ [{ cancEntry with p := p2, addr := stallRhdr.addr, handled := true }] ++ [] ∧
      p2.status = stallRhdr.status :=
  reader_shadow_reset_and_entry_capture 3 c2State stallRhdr 0 none []
    cancEntry [] (by decide) (by decide) (by decide) (by decide)
    (Or.inl rfl) rfl rfl

theorem cancel_bounded_and_removed_w :
    ((usb_tcp_remote_cancel_packet 0 sampleState samplePacket true true 0
        [(false, 2000000000)]).s.queue.map entryKey =
      sampleState.queue.map entryKey) ∧
    (usb_tcp_remote_cancel_packet 0 sampleState samplePacket true true 0
        [(false, 2000000000)]).registered = true ∧
    (usb_tcp_remote_cancel_packet 0 sampleState samplePacket true true 0
        [(false, 2000000000)]).spinIters ≤ 0 := by
  have h := cancel_bounded_and_removed 0 sampleState samplePacket true true 0
    [(false, 2000000000)] rfl rfl
  exact ⟨h.1, h.2.1, h.2.2 0 (by decide) (Or.inr (by decide))⟩

theorem reader_nak_remap_and_async_drop_w :
    ∃ p2, (usb_tcp_remote_read_one 0 c5State (some TcpUsbType.response)
        (some nakRhdr) 0 none).pAfter = some p2 ∧
      p2.status = USB_RET_IOERROR :=
  (reader_nak_remap_and_async_drop 0 c5State nakRhdr 0 none [] queuedEntry []
    (by decide) (by decide) (by decide) rfl).1 rfl rfl

theorem handle_packet_stall_on_failure_w :
    (usb_tcp_remote_handle_packet 0 closedState samplePacket true true true
        wake7).p.status = USB_RET_STALL ∧
      (usb_tcp_remote_handle_packet 0 closedState samplePacket true true true
        wake7).s = closedState ∧
      (usb_tcp_remote_handle_packet 0 closedState samplePacket true true true
        wake7).dev_addr = 0 ∧
      (usb_tcp_remote_handle_packet 0 closedState samplePacket true true true
        wake7).registered = false ∧
      (usb_tcp_remote_handle_packet 0 closedState samplePacket true true true
        wake7).attemptedWrite = false ∧
      (usb_tcp_remote_handle_packet 0 closedState samplePacket true true true
        wake7).waited = false :=
  handle_packet_stall_on_failure.1 0 closedState samplePacket true true true
    wake7 rfl

theorem reader_out_response_accumulates_w :
    (usb_tcp_remote_read_one 0 c7State (some TcpUsbType.response)
        (some outRhdr) 0 none).payloadConsumed = 0 ∧
    ∃ p2, (usb_tcp_remote_read_one 0 c7State (some TcpUsbType.response)
        (some outRhdr) 0 none).pAfter = some p2 ∧
      p2.actual_length = outEntry.p.actual_length + outRhdr.length ∧
      (outRhdr.status = USB_RET_SUCCESS →
        p2.status = USB_RET_SUCCESS ∧
        (usb_tcp_remote_read_one 0 c7State (some TcpUsbType.response)
            (some outRhdr) 0 none).cont = true) :=
  reader_out_response_accumulates 0 c7State outRhdr 0 none [] outEntry []
    (by decide) (by decide) rfl (by decide) (by decide)

theorem staging_preserves_actual_length_w :
    (stageRequest sampleState samplePacket).2.actual_length =
      samplePacket.actual_length :=
  staging_preserves_actual_length sampleState samplePacket (by decide)
    (by decide)

theorem handle_packet_inflight_net_zero_w :
    ((usb_tcp_remote_handle_packet 0 sampleState samplePacket true true true
        wake7).s.queue.map entryKey = sampleState.queue.map entryKey) ∧
      (usb_tcp_remote_handle_packet 0 sampleState samplePacket true true true
        wake7).registered = true :=
  ⟨(handle_packet_inflight_net_zero 0 sampleState samplePacket true true true
      wake7).1,
    (handle_packet_inflight_net_zero 0 sampleState samplePacket true true true
      wake7).2 rfl⟩
